/-
  Verification of the abba-broker publish-job lifecycle.

  Shallow embedding of the core of the repository:
    - src/lib/types.ts    : PublishStatus, PublishJob, terminal statuses,
                            progress / message tables
    - src/lib/db.ts       : in-memory job store (create / get / update)
    - src/lib/bundle.ts   : validateBundleSize, ensureDefaultFiles
    - src/lib/vercel.ts   : generateProjectName, deployBundle,
                            pollDeploymentUntilReady (remote HTTP calls are
                            oracles supplied as parameters)
    - src/app/api/v1/publish/upload/route.ts : PUT handler pipeline
    - src/app/api/v1/publish/cancel/route.ts : POST handler
    - src/app/api/v1/publish/status/route.ts : GET handler

  Remote effects (Vercel API calls, archive decompression) are modelled as
  oracle parameters: the create-deployment call is an `Except` value, the
  poller's status probes are a function from tick index to an `Except`
  observation (an `error` models a thrown/ransient network failure that the
  source swallows).  Wall-clock time in the poller is modelled by counting
  iterations: the source advances `elapsed` by the fixed 3000 ms interval per
  loop turn, so a budget of `maxWaitMs` admits exactly
  `ceil(maxWaitMs / 3000)` polls before the timeout branch runs.

  JavaScript object-spread semantics are modelled precisely: an update field
  of type `Option (Option String)` distinguishes an absent key (`none`, field
  kept) from a key present with `undefined` (`some none`, field cleared) and
  a key present with a value (`some (some v)`).
-/
import Mathlib

namespace AbbaBroker

/-- Embeds `PublishStatusEnum` from src/lib/types.ts. -/
inductive PublishStatus where
  | queued
  | packaging
  | uploading
  | building
  | deploying
  | ready
  | failed
  | cancelled
deriving DecidableEq, Repr

/-- Embeds `TERMINAL_STATUSES` from src/lib/types.ts. -/
def TERMINAL_STATUSES : List PublishStatus :=
  [PublishStatus.ready, PublishStatus.failed, PublishStatus.cancelled]

/-- Embeds `isTerminalStatus` from src/lib/types.ts. -/
def isTerminalStatus (status : PublishStatus) : Bool :=
  TERMINAL_STATUSES.contains status

/-- The literal text of each status value (used in response messages). -/
def statusToString : PublishStatus → String
  | PublishStatus.queued => "queued"
  | PublishStatus.packaging => "packaging"
  | PublishStatus.uploading => "uploading"
  | PublishStatus.building => "building"
  | PublishStatus.deploying => "deploying"
  | PublishStatus.ready => "ready"
  | PublishStatus.failed => "failed"
  | PublishStatus.cancelled => "cancelled"

/-- Embeds `STATUS_PROGRESS` / `getStatusProgress` from src/lib/types.ts. -/
def getStatusProgress : PublishStatus → Nat
  | PublishStatus.queued => 5
  | PublishStatus.packaging => 15
  | PublishStatus.uploading => 35
  | PublishStatus.building => 60
  | PublishStatus.deploying => 85
  | PublishStatus.ready => 100
  | PublishStatus.failed => 0
  | PublishStatus.cancelled => 0

/-- Embeds `getStatusMessage` from src/lib/types.ts. -/
def getStatusMessage : PublishStatus → String
  | PublishStatus.queued => "Preparing to publish..."
  | PublishStatus.packaging => "Processing bundle..."
  | PublishStatus.uploading => "Uploading to Vercel..."
  | PublishStatus.building => "Building for production..."
  | PublishStatus.deploying => "Deploying to ABBA hosting..."
  | PublishStatus.ready => "Your app is live!"
  | PublishStatus.failed => "Publish failed"
  | PublishStatus.cancelled => "Publish cancelled"

/-- Embeds `PublishJob` record from src/lib/types.ts.  Timestamps are abstract
`Nat` clock values (ISO strings in the source). -/
structure PublishJob where
  id : String
  status : PublishStatus
  app_id : Int
  app_name : Option String
  profile_id : Option String
  bundle_hash : String
  bundle_size : Nat
  bundle_path : Option String
  vercel_deployment_id : Option String
  vercel_project_id : Option String
  url : Option String
  error : Option String
  created_at : Nat
  updated_at : Nat
deriving DecidableEq, Repr

/-- The in-memory job store of src/lib/db.ts (`inMemoryJobs : Map<string,
PublishJob>`), as an association list keyed by job id. -/
abbrev Store := List (String × PublishJob)

/-- Embeds `Map.get` on the in-memory store. -/
def storeGet : Store → String → Option PublishJob
  | [], _ => none
  | p :: rest, publishId =>
    if p.fst == publishId then some p.snd else storeGet rest publishId

/-- Embeds `Map.set` on the in-memory store: replaces the binding when the key is
present, appends otherwise. -/
def storeSet : Store → String → PublishJob → Store
  | [], publishId, job => [(publishId, job)]
  | p :: rest, publishId, job =>
    if p.fst == publishId then (publishId, job) :: rest
    else p :: storeSet rest publishId job

/-- A partial update object (`Partial<Omit<PublishJob,'id'|'created_at'>>`)
as passed to `updatePublishJob`.  For each field, `none` models an absent
key, `some v` a key present with value `v` (itself `Option` for nullable
columns, so `some none` is a key present with `undefined`). -/
structure JobUpdates where
  status : Option PublishStatus := none
  url : Option (Option String) := none
  error : Option (Option String) := none
  vercel_deployment_id : Option (Option String) := none
  vercel_project_id : Option (Option String) := none
  bundle_path : Option (Option String) := none
deriving DecidableEq, Repr

/-- The object-spread merge `{ ...job, ...updateData }` performed by
`updatePublishJob` (src/lib/db.ts), including the `updated_at` refresh. -/
def applyUpdates (job : PublishJob) (u : JobUpdates) (now : Nat) : PublishJob :=
  { job with
    status := u.status.getD job.status
    url := u.url.getD job.url
    error := u.error.getD job.error
    vercel_deployment_id := u.vercel_deployment_id.getD job.vercel_deployment_id
    vercel_project_id := u.vercel_project_id.getD job.vercel_project_id
    bundle_path := u.bundle_path.getD job.bundle_path
    updated_at := now }

/-- Embeds `updatePublishJob` from src/lib/db.ts (in-memory branch): merge the
updates into the stored record, or return `none` when the id is unknown. -/
def updatePublishJob (s : Store) (publishId : String) (u : JobUpdates)
    (now : Nat) : Option PublishJob × Store :=
  match storeGet s publishId with
  | none => (none, s)
  | some job =>
    let updatedJob := applyUpdates job u now
    (some updatedJob, storeSet s publishId updatedJob)

/-- The `extra` argument of `updateJobStatus` (src/lib/db.ts). -/
structure StatusExtra where
  url : Option (Option String) := none
  error : Option (Option String) := none
  vercel_deployment_id : Option (Option String) := none
  vercel_project_id : Option (Option String) := none
  bundle_path : Option (Option String) := none
deriving DecidableEq, Repr

/-- The update object `{ status, ...extra }` built by `updateJobStatus`. -/
def toUpdates (status : PublishStatus) (extra : StatusExtra) : JobUpdates :=
  { status := some status
    url := extra.url
    error := extra.error
    vercel_deployment_id := extra.vercel_deployment_id
    vercel_project_id := extra.vercel_project_id
    bundle_path := extra.bundle_path }

/-- Embeds `updateJobStatus` from src/lib/db.ts. -/
def updateJobStatus (s : Store) (publishId : String) (status : PublishStatus)
    (extra : StatusExtra) (now : Nat) : Option PublishJob × Store :=
  updatePublishJob s publishId (toUpdates status extra) now

/-- Embeds `getPublishJob` from src/lib/db.ts (in-memory branch). -/
def getPublishJob (s : Store) (publishId : String) : Option PublishJob :=
  storeGet s publishId

/-- The JavaScript `x || null` coercion on an optional string parameter:
an absent value and the empty string both become null. -/
def orNull : Option String → Option String
  | some s => if s.isEmpty then none else some s
  | none => none

/-- Parameters of `createPublishJob` (src/lib/db.ts). -/
structure CreateParams where
  appId : Int
  appName : Option String := none
  profileId : Option String := none
  bundleHash : String
  bundleSize : Nat
deriving DecidableEq, Repr

/-- Embeds `createPublishJob` from src/lib/db.ts (in-memory branch).  The uuid and
the clock are parameters. -/
def createPublishJob (s : Store) (newId : String) (params : CreateParams)
    (now : Nat) : PublishJob × Store :=
  let job : PublishJob :=
    { id := newId
      status := PublishStatus.queued
      app_id := params.appId
      app_name := orNull params.appName
      profile_id := orNull params.profileId
      bundle_hash := params.bundleHash
      bundle_size := params.bundleSize
      bundle_path := none
      vercel_deployment_id := none
      vercel_project_id := none
      url := none
      error := none
      created_at := now
      updated_at := now }
  (job, storeSet s newId job)

-- ## Bundle processor (src/lib/bundle.ts)

/-- Embeds `MAX_BUNDLE_SIZE` from src/lib/bundle.ts (50 MB). -/
def MAX_BUNDLE_SIZE : Nat := 50 * 1024 * 1024

/-- Result shape of `validateBundleSize`. -/
structure SizeValidation where
  valid : Bool
  error : Option String := none
deriving DecidableEq, Repr

/-- Embeds `validateBundleSize` from src/lib/bundle.ts. -/
def validateBundleSize (size : Nat) : SizeValidation :=
  if size > MAX_BUNDLE_SIZE then
    { valid := false
      error := some ("Bundle too large: " ++ toString size ++
        " bytes (max " ++ toString MAX_BUNDLE_SIZE ++ " bytes)") }
  else
    { valid := true }

/-- Embeds `DeploymentFile` from src/lib/vercel.ts: `encoding` is `some "base64"`
for binary content and `none` for UTF-8 text. -/
structure DeploymentFile where
  file : String
  data : String
  encoding : Option String := none
deriving DecidableEq, Repr

/-- Content of the synthetic placeholder `index.html` injected by
`ensureDefaultFiles` (src/lib/bundle.ts). -/
def DEFAULT_INDEX_HTML : String :=
  "<!DOCTYPE html>\n<html>\n<head>\n  <meta charset=\"utf-8\">\n  <meta name=\"viewport\" content=\"width=device-width, initial-scale=1\">\n  <title>ABBA App</title>\n</head>\n<body>\n  <h1>ABBA App</h1>\n  <p>This app was deployed with ABBA Hosting.</p>\n</body>\n</html>"

/-- The placeholder entry pushed by `ensureDefaultFiles`. -/
def defaultIndexFile : DeploymentFile :=
  { file := "index.html", data := DEFAULT_INDEX_HTML }

/-- JavaScript `String.prototype.endsWith`, as a suffix test on the
character sequences (kernel-reducible, unlike `String.endsWith`). -/
def strEndsWith (s suffix : String) : Bool :=
  List.isSuffixOf suffix.data s.data

/-- The predicate the source tests each entry against:
`f.file === 'index.html' || f.file.endsWith('/index.html')`. -/
def hasIndexHtmlEntry (f : DeploymentFile) : Bool :=
  f.file == "index.html" || strEndsWith f.file "/index.html"

/-- Embeds `ensureDefaultFiles` from src/lib/bundle.ts.  The source mutates and
returns the given array; appending models the `push`. -/
def ensureDefaultFiles (files : List DeploymentFile) : List DeploymentFile :=
  let hasIndexHtml := files.any hasIndexHtmlEntry
  if hasIndexHtml then files else files ++ [defaultIndexFile]

-- ## Deployment client (src/lib/vercel.ts)

/-- Embeds `generateProjectName` from src/lib/vercel.ts. -/
def generateProjectName (appId : Int) (bundleHash : String) : String :=
  "abba-app-" ++ toString appId ++ "-" ++ bundleHash.take 8

/-- Vercel `readyState` vocabulary. -/
inductive ReadyState where
  | QUEUED
  | BUILDING
  | READY
  | ERROR
  | CANCELED
deriving DecidableEq, Repr

/-- Result of `getDeploymentStatus` from src/lib/vercel.ts. -/
structure DeploymentStatus where
  readyState : ReadyState
  url : Option String
  errorMessage : Option String := none
deriving DecidableEq, Repr

-- ## Effect state threaded through the handlers

/-- The observable state a handler run touches: the job store, the ordered
list of job records written through `updateJobStatus` (each snapshot is the
record as stored after the write), the deployments created at the provider
(project name, deployment id), and the deployment ids whose remote
cancellation was attempted. -/
structure World where
  store : Store
  log : List PublishJob := []
  deployments : List (String × String × List DeploymentFile) := []
  cancelAttempts : List String := []
deriving DecidableEq, Repr

/-- Embeds `updateJobStatus` lifted to a `World`: performs the store update and
records the written record (when the id exists) in the log. -/
def updateJobStatusW (w : World) (publishId : String) (status : PublishStatus)
    (extra : StatusExtra) (now : Nat) : World :=
  match updateJobStatus w.store publishId status extra now with
  | (some job, s2) => { w with store := s2, log := w.log ++ [job] }
  | (none, s2) => { w with store := s2 }

/-- Embeds `deployBundle` from src/lib/vercel.ts.  The two remote calls it makes on
the success path (create deployment, fetch project id) are a single oracle
`createResult`; a failing oracle models either call throwing, which the
source catches, writes `failed` with the error message, and rethrows. -/
def deployBundle (w : World) (publishId : String) (appId : Int)
    (bundleHash : String) (files : List DeploymentFile)
    (createResult : Except String (String × String))
    (now : Nat) : Except String (String × String) × World :=
  let projectName := generateProjectName appId bundleHash
  let w1 := updateJobStatusW w publishId PublishStatus.deploying {} now
  match createResult with
  | Except.ok (deploymentId, projectId) =>
    (Except.ok (deploymentId, projectId),
      { w1 with deployments :=
          w1.deployments ++ [(projectName, deploymentId, files)] })
  | Except.error msg =>
    let w2 := updateJobStatusW w1 publishId PublishStatus.failed
      { error := some (some msg) } now
    (Except.error msg, w2)

-- ## Reconciliation poller (pollDeploymentUntilReady, src/lib/vercel.ts)

/-- Result shape of `pollDeploymentUntilReady`. -/
structure PollResult where
  success : Bool
  url : Option String := none
  error : Option String := none
deriving DecidableEq, Repr

/-- Embeds `pollInterval` constant of the poller (3 seconds). -/
def POLL_INTERVAL : Nat := 3000

/-- The poller loop.  `obs t` is the outcome of the status probe at tick
`t`: `Except.error` models `getDeploymentStatus` throwing (swallowed and
retried by the source), `Except.ok` a provider response.  `fuel` is the
number of loop turns the wall-clock budget admits (the source advances its
elapsed time by the fixed 3000 ms interval per turn); when it is exhausted
the timeout branch writes `failed` with the timeout error. -/
def pollLoop (publishId : String) (obs : Nat → Except String DeploymentStatus)
    (now : Nat) : Nat → Nat → World → PollResult × World
  | 0, _, w =>
    let w2 := updateJobStatusW w publishId PublishStatus.failed
      { error := some (some "Deployment timed out after 5 minutes") } now
    ({ success := false, error := some "Deployment timed out" }, w2)
  | fuel + 1, tick, w =>
    match obs tick with
    | Except.error _ => pollLoop publishId obs now fuel (tick + 1) w
    | Except.ok st =>
      match st.readyState with
      | ReadyState.READY =>
        let w2 := updateJobStatusW w publishId PublishStatus.ready
          { url := some st.url } now
        ({ success := true, url := st.url }, w2)
      | ReadyState.ERROR =>
        let w2 := updateJobStatusW w publishId PublishStatus.failed
          { error := some (some (st.errorMessage.getD "Deployment failed")) } now
        ({ success := false, error := st.errorMessage }, w2)
      | ReadyState.CANCELED =>
        let w2 := updateJobStatusW w publishId PublishStatus.cancelled {} now
        ({ success := false, error := some "Deployment was cancelled" }, w2)
      | ReadyState.BUILDING =>
        let w2 := updateJobStatusW w publishId PublishStatus.building {} now
        pollLoop publishId obs now fuel (tick + 1) w2
      | ReadyState.QUEUED =>
        pollLoop publishId obs now fuel (tick + 1) w

/-- Number of poll iterations a wall-clock budget admits:
`ceil(maxWaitMs / pollInterval)` (the loop runs while
`elapsed = 3000 * tick < maxWaitMs`). -/
def pollBudget (maxWaitMs : Nat) : Nat :=
  (maxWaitMs + POLL_INTERVAL - 1) / POLL_INTERVAL

/-- Embeds `pollDeploymentUntilReady` from src/lib/vercel.ts (default budget
300000 ms = 5 minutes). -/
def pollDeploymentUntilReady (w : World) (publishId : String)
    (obs : Nat → Except String DeploymentStatus) (maxWaitMs : Nat)
    (now : Nat) : PollResult × World :=
  pollLoop publishId obs now (pollBudget maxWaitMs) 0 w

-- ## Upload handler (src/app/api/v1/publish/upload/route.ts, PUT)

/-- The uploaded payload, abstracted to what the handler inspects: its byte
length and its content hash (`computeHash(bundleBuffer)`). -/
structure Bundle where
  length : Nat
  hash : String
deriving DecidableEq, Repr

/-- Oracles for one run of the upload handler.  `bundle = none` models a
multipart request without a `bundle` form field; `extractResult` is the
outcome of `extractBundle` (an `error` is the thrown extraction failure);
`createResult` feeds `deployBundle` (see there). -/
structure UploadEnv where
  bundle : Option Bundle
  vercelConfigured : Bool
  extractResult : Except String (List DeploymentFile)
  createResult : Except String (String × String)

/-- Responses of the upload handler, one constructor per `return` site
(rate-limit/auth and the missing-query-parameter branch are outside the
modelled core). -/
inductive UploadResponse where
  | notFound
  | wrongStatus (status : PublishStatus)
  | noBundle
  | tooLarge (msg : String)
  | mockSuccess
  | deployed (deploymentId : String)
  | serverError (msg : String)
deriving DecidableEq, Repr

/-- The synthetic degraded-mode URL
`https://mock-${job.app_id}.vercel.app`. -/
def mockUrl (appId : Int) : String :=
  "https://mock-" ++ toString appId ++ ".vercel.app"

/-- The `PUT` upload pipeline.  The background
`pollDeploymentUntilReady` call is fire-and-forget in the source (not
awaited before the response); it is composed separately in `fullRun`. -/
def uploadPut (w : World) (publishId : String) (env : UploadEnv)
    (now : Nat) : UploadResponse × World :=
  match getPublishJob w.store publishId with
  | none => (UploadResponse.notFound, w)
  | some job =>
    if job.status ≠ PublishStatus.queued then
      (UploadResponse.wrongStatus job.status, w)
    else
      let w1 := updateJobStatusW w publishId PublishStatus.uploading {} now
      match env.bundle with
      | none =>
        let w2 := updateJobStatusW w1 publishId PublishStatus.failed
          { error := some (some "No bundle file in form data") } now
        (UploadResponse.noBundle, w2)
      | some bundle =>
        let sizeValidation := validateBundleSize bundle.length
        if sizeValidation.valid = false then
          let w2 := updateJobStatusW w1 publishId PublishStatus.failed
            { error := some sizeValidation.error } now
          (UploadResponse.tooLarge (sizeValidation.error.getD ""), w2)
        else
          let w2 := updateJobStatusW w1 publishId PublishStatus.packaging {} now
          match env.extractResult with
          | Except.error msg => (UploadResponse.serverError msg, w2)
          | Except.ok files =>
            let deployFiles := ensureDefaultFiles files
            if env.vercelConfigured = false then
              let w3 := updateJobStatusW w2 publishId PublishStatus.ready
                { url := some (some (mockUrl job.app_id)) } now
              (UploadResponse.mockSuccess, w3)
            else
              match deployBundle w2 publishId job.app_id bundle.hash
                  deployFiles env.createResult now with
              | (Except.error msg, w3) => (UploadResponse.serverError msg, w3)
              | (Except.ok (deploymentId, projectId), w3) =>
                let w4 := updateJobStatusW w3 publishId PublishStatus.building
                  { vercel_deployment_id := some (some deploymentId)
                    vercel_project_id := some (some projectId) } now
                (UploadResponse.deployed deploymentId, w4)

-- ## Cancel handler (src/app/api/v1/publish/cancel/route.ts, POST)

/-- Outcome of the remote `cancelDeployment` call: it returns a boolean or
throws.  The handler ignores the boolean and catches the throw, so the
outcome never influences the local result. -/
inductive RemoteCancel where
  | ok (success : Bool)
  | throws (msg : String)
deriving DecidableEq, Repr

/-- Responses of the cancel handler. -/
inductive CancelResponse where
  | notFound
  | rejected (status : PublishStatus) (message : String)
  | cancelled
deriving DecidableEq, Repr

/-- The `POST` cancel handler.  `rejected` carries `success := false` with
the job's current status; `cancelled` carries `success := true`. -/
def cancelPost (w : World) (publishId : String) (remote : RemoteCancel)
    (now : Nat) : CancelResponse × World :=
  match getPublishJob w.store publishId with
  | none => (CancelResponse.notFound, w)
  | some job =>
    if isTerminalStatus job.status then
      (CancelResponse.rejected job.status
        ("Cannot cancel job in " ++ statusToString job.status ++ " state"), w)
    else
      let w1 :=
        match job.vercel_deployment_id with
        | some deploymentId =>
          let _ := remote
          { w with cancelAttempts := w.cancelAttempts ++ [deploymentId] }
        | none => w
      let w2 := updateJobStatusW w1 publishId PublishStatus.cancelled {} now
      (CancelResponse.cancelled, w2)

-- ## Status handler (src/app/api/v1/publish/status/route.ts, GET)

/-- The JSON payload of a successful status response. -/
structure StatusPayload where
  status : PublishStatus
  progress : Nat
  message : String
  url : Option String
  error : Option String
deriving DecidableEq, Repr

/-- Responses of the status handler. -/
inductive StatusResponse where
  | notFound
  | ok (payload : StatusPayload)
deriving DecidableEq, Repr

/-- The payload built from the local variables `status`, `url`, `error`. -/
def statusPayload (status : PublishStatus) (url error : Option String) :
    StatusPayload :=
  { status := status
    progress := getStatusProgress status
    message := getStatusMessage status
    url := url
    error := error }

/-- The `GET` status handler.  `probe` is the outcome of the optional
`getDeploymentStatus` freshness check (an `error` models it throwing, in
which case the cached values are returned). -/
def statusGet (w : World) (publishId : String)
    (probe : Except String DeploymentStatus) : StatusResponse × World :=
  match getPublishJob w.store publishId with
  | none => (StatusResponse.notFound, w)
  | some job =>
    if isTerminalStatus job.status then
      (StatusResponse.ok (statusPayload job.status job.url job.error), w)
    else
      if job.vercel_deployment_id.isSome &&
          (job.status == PublishStatus.building ||
            job.status == PublishStatus.deploying) then
        match probe with
        | Except.error _ =>
          (StatusResponse.ok (statusPayload job.status job.url job.error), w)
        | Except.ok st =>
          match st.readyState with
          | ReadyState.READY =>
            (StatusResponse.ok (statusPayload PublishStatus.ready st.url job.error), w)
          | ReadyState.ERROR =>
            (StatusResponse.ok (statusPayload PublishStatus.failed job.url
              (some (st.errorMessage.getD "Deployment failed"))), w)
          | ReadyState.CANCELED =>
            (StatusResponse.ok (statusPayload PublishStatus.cancelled job.url job.error), w)
          | ReadyState.BUILDING =>
            (StatusResponse.ok (statusPayload PublishStatus.building job.url job.error), w)
          | ReadyState.QUEUED =>
            (StatusResponse.ok (statusPayload job.status job.url job.error), w)
      else
        (StatusResponse.ok (statusPayload job.status job.url job.error), w)

-- ## Composed sequential run (create → upload → background poller)

/-- Environment of a full sequential run. -/
structure RunEnv where
  env : UploadEnv
  obs : Nat → Except String DeploymentStatus
  maxWaitMs : Nat

/-- One sequential publish run on a fresh store: `createPublishJob`, then
the upload pipeline, then — when a deployment was started — the background
poller to completion.  The created record and every record written by
`updateJobStatus` appear in the resulting log, in order. -/
def fullRun (newId : String) (params : CreateParams) (re : RunEnv)
    (now : Nat) : World :=
  let created := createPublishJob [] newId params now
  let w1 : World := { store := created.snd, log := [created.fst] }
  let r2 := uploadPut w1 newId re.env now
  match r2.fst with
  | UploadResponse.deployed _ =>
    (pollDeploymentUntilReady r2.snd newId re.obs re.maxWaitMs now).snd
  | _ => r2.snd

-- ## Specification-side predicates

/-- The containment relation used to state "the message contains ...". -/
def containsStr (needle hay : String) : Prop :=
  ∃ pre post, hay = pre ++ needle ++ post

/-- The §3 url/error invariant of the spec, as a decidable check on one
record: `url` is set iff the status is `ready`; `error` is set when the
status is `failed`, and only on `failed` or `cancelled`. -/
def urlErrorInv (j : PublishJob) : Bool :=
  (j.url.isSome == (j.status == PublishStatus.ready)) &&
  (!(j.status == PublishStatus.failed) || j.error.isSome) &&
  (!j.error.isSome || (j.status == PublishStatus.failed ||
    j.status == PublishStatus.cancelled))

/-- A provider-status observation that is not terminal (QUEUED, BUILDING,
or a thrown probe). -/
def nonTerminalObs : Except String DeploymentStatus → Prop
  | Except.error _ => True
  | Except.ok st =>
    st.readyState = ReadyState.QUEUED ∨ st.readyState = ReadyState.BUILDING

/-- Provider observations that carry a URL on READY. -/
def goodObs (obs : Nat → Except String DeploymentStatus) : Prop :=
  ∀ t st, obs t = Except.ok st → st.readyState = ReadyState.READY →
    st.url.isSome = true

/-- Every record of a store satisfies the url/error check. -/
def storeInv (s : Store) : Bool :=
  s.all fun p => urlErrorInv p.snd

/-- The statuses written in a world's log, in write order. -/
def logStatuses (w : World) : List PublishStatus :=
  w.log.map PublishJob.status

/-- Index of the first occurrence of a status in a list. -/
def statusIdx (status : PublishStatus) (l : List PublishStatus) : Nat :=
  l.findIdx (· == status)

-- ## Concrete fixtures for witnesses and counterexamples

/-- A job record with the given id, status and app id, all optional fields
unset (the shape `createPublishJob` produces, with the status overridden). -/
def mkJob (id : String) (status : PublishStatus) (appId : Int) : PublishJob :=
  { id := id
    status := status
    app_id := appId
    app_name := none
    profile_id := none
    bundle_hash := "abc123"
    bundle_size := 1024
    bundle_path := none
    vercel_deployment_id := none
    vercel_project_id := none
    url := none
    error := none
    created_at := 0
    updated_at := 0 }

/-- A probe oracle that always reports QUEUED. -/
def obsQueued : Nat → Except String DeploymentStatus :=
  fun _ => Except.ok { readyState := ReadyState.QUEUED, url := none }

/-- A probe oracle that reports READY without a URL. -/
def obsReadyNoUrl : Nat → Except String DeploymentStatus :=
  fun _ => Except.ok { readyState := ReadyState.READY, url := none }

/-- A probe oracle that reports READY with a URL. -/
def obsReadyWithUrl : Nat → Except String DeploymentStatus :=
  fun _ => Except.ok
    { readyState := ReadyState.READY, url := some "https://app-ex.vercel.app" }

/-- Upload oracles for a successful deploy run. -/
def envDeployEx : UploadEnv :=
  { bundle := some { length := 1024, hash := "deadbeefcafe" }
    vercelConfigured := true
    extractResult := Except.ok [{ file := "main.js", data := "x" }]
    createResult := Except.ok ("dpl-ex", "prj-ex") }

/-- Upload oracles for a degraded-mode (provider unconfigured) run. -/
def envMockEx : UploadEnv :=
  { bundle := some { length := 1024, hash := "deadbeefcafe" }
    vercelConfigured := false
    extractResult := Except.ok [{ file := "main.js", data := "x" }]
    createResult := Except.error "unreachable" }

/-- A world holding one job in the given status. -/
def exWorld (id : String) (status : PublishStatus) (appId : Int) : World :=
  { store := [(id, mkJob id status appId)] }

/-- A world holding one job in the given status that carries a deployment
handle. -/
def exWorldDeploy (id : String) (status : PublishStatus) (appId : Int) : World :=
  { store := [(id, { mkJob id status appId with
      vercel_deployment_id := some "dpl-ex"
      vercel_project_id := some "prj-ex" })] }

/-- Status and url of a record, for stating what a store holds. -/
def statusUrlOf (j : PublishJob) : PublishStatus × Option String :=
  (j.status, j.url)

/-- Status and error of a record, for stating what a store holds. -/
def statusErrorOf (j : PublishJob) : PublishStatus × Option String :=
  (j.status, j.error)

/-- A file list whose only index file sits in a subdirectory. -/
def nestedIndexFiles : List DeploymentFile :=
  [{ file := "sub/index.html", data := "<h1>hi</h1>" }]

/-- A file list with no index file at any level. -/
def noIndexFiles : List DeploymentFile :=
  [{ file := "main.js", data := "x" }]

-- ## Store and update helper lemmas

theorem storeGet_storeSet_self (s : Store) (publishId : String)
    (j : PublishJob) : storeGet (storeSet s publishId j) publishId = some j := by
  induction s with
  | nil => simp [storeSet, storeGet]
  | cons p rest ih =>
    by_cases h : p.fst == publishId
    · simp [storeSet, storeGet, h]
    · simp [storeSet, storeGet, h, ih]

theorem applyUpdates_toUpdates_status (j : PublishJob) (status : PublishStatus)
    (extra : StatusExtra) (now : Nat) :
    (applyUpdates j (toUpdates status extra) now).status = status := rfl

theorem applyUpdates_toUpdates_url (j : PublishJob) (status : PublishStatus)
    (extra : StatusExtra) (now : Nat) :
    (applyUpdates j (toUpdates status extra) now).url = extra.url.getD j.url := rfl

theorem applyUpdates_toUpdates_error (j : PublishJob) (status : PublishStatus)
    (extra : StatusExtra) (now : Nat) :
    (applyUpdates j (toUpdates status extra) now).error =
      extra.error.getD j.error := rfl

theorem updateJobStatusW_found (w : World) (publishId : String)
    (status : PublishStatus) (extra : StatusExtra) (now : Nat) (j : PublishJob)
    (h : storeGet w.store publishId = some j) :
    updateJobStatusW w publishId status extra now =
      { w with
        store := storeSet w.store publishId
          (applyUpdates j (toUpdates status extra) now)
        log := w.log ++ [applyUpdates j (toUpdates status extra) now] } := by
  simp [updateJobStatusW, updateJobStatus, updatePublishJob, h]

theorem updateJobStatusW_get (w : World) (publishId : String)
    (status : PublishStatus) (extra : StatusExtra) (now : Nat) (j : PublishJob)
    (h : storeGet w.store publishId = some j) :
    storeGet (updateJobStatusW w publishId status extra now).store publishId =
      some (applyUpdates j (toUpdates status extra) now) := by
  rw [updateJobStatusW_found w publishId status extra now j h]
  exact storeGet_storeSet_self w.store publishId _

theorem updateJobStatusW_deployments (w : World) (publishId : String)
    (status : PublishStatus) (extra : StatusExtra) (now : Nat) :
    (updateJobStatusW w publishId status extra now).deployments =
      w.deployments := by
  unfold updateJobStatusW
  split <;> rfl

theorem updateJobStatusW_cancelAttempts (w : World) (publishId : String)
    (status : PublishStatus) (extra : StatusExtra) (now : Nat) :
    (updateJobStatusW w publishId status extra now).cancelAttempts =
      w.cancelAttempts := by
  unfold updateJobStatusW
  split <;> rfl

theorem logStatuses_update (w : World) (publishId : String)
    (status : PublishStatus) (extra : StatusExtra) (now : Nat) (j : PublishJob)
    (h : storeGet w.store publishId = some j) :
    logStatuses (updateJobStatusW w publishId status extra now) =
      logStatuses w ++ [status] := by
  rw [updateJobStatusW_found w publishId status extra now j h]
  simp [logStatuses, applyUpdates_toUpdates_status]

-- ## Claim theorems

/-- C9: size validation boundary.  `validateBundleSize x` is valid for every
`x ≤ 50*1024*1024` (the boundary value itself is valid) and invalid with an
error message for every `x > 50*1024*1024`. -/
theorem validateBundleSize_boundary (x : Nat) :
    (x ≤ MAX_BUNDLE_SIZE → validateBundleSize x = { valid := true, error := none }) ∧
    (x > MAX_BUNDLE_SIZE → (validateBundleSize x).valid = false ∧
      (validateBundleSize x).error.isSome = true) := by
  constructor
  · intro h
    rw [validateBundleSize, if_neg (by omega)]
  · intro h
    rw [validateBundleSize, if_pos h]
    exact ⟨rfl, rfl⟩

/-- Witness for C9 at the boundary (50 MiB is valid, one byte more is
invalid with an error set). -/
theorem validateBundleSize_boundary_witness :
    validateBundleSize 52428800 = { valid := true, error := none } ∧
    (validateBundleSize 52428801).valid = false ∧
    (validateBundleSize 52428801).error.isSome = true :=
  ⟨(validateBundleSize_boundary 52428800).1 (by decide),
    (validateBundleSize_boundary 52428801).2 (by decide)⟩

/-- C4 counterexample: on a file list whose only index file is the nested
`sub/index.html`, `ensureDefaultFiles` returns the list unchanged, and the
result contains no root-level `index.html` entry — refuting the claim that
the result always contains a root-level index file. -/
theorem ensureDefaultFiles_counterexample :
    ensureDefaultFiles nestedIndexFiles = nestedIndexFiles ∧
    ¬ ("index.html" ∈ (ensureDefaultFiles nestedIndexFiles).map
        DeploymentFile.file) := by
  decide

/-- C4 amended: `ensureDefaultFiles` guarantees the result contains an
index entry at SOME level (a root `index.html` or any path ending in
`/index.html`): when no such entry is present in the input the synthetic
root placeholder is appended, otherwise the list is returned unchanged —
a nested index file alone already suppresses the placeholder, so a
root-level entry is not guaranteed. -/
theorem ensureDefaultFiles_spec (files : List DeploymentFile) :
    (ensureDefaultFiles files).any hasIndexHtmlEntry = true ∧
    (files.any hasIndexHtmlEntry = false →
      ensureDefaultFiles files = files ++ [defaultIndexFile]) ∧
    (files.any hasIndexHtmlEntry = true → ensureDefaultFiles files = files) := by
  refine ⟨?_, ?_, ?_⟩
  · by_cases h : files.any hasIndexHtmlEntry
    · simp [ensureDefaultFiles, h]
    · simp only [Bool.not_eq_true] at h
      simp [ensureDefaultFiles, h]
      decide
  · intro h
    simp [ensureDefaultFiles, h]
  · intro h
    simp [ensureDefaultFiles, h]

/-- Witness for C4 amended: with no index file anywhere, the placeholder is
appended; with a nested index file, nothing is appended. -/
theorem ensureDefaultFiles_spec_witness :
    ensureDefaultFiles noIndexFiles = noIndexFiles ++ [defaultIndexFile] ∧
    ensureDefaultFiles nestedIndexFiles = nestedIndexFiles :=
  ⟨(ensureDefaultFiles_spec noIndexFiles).2.1 (by decide),
    (ensureDefaultFiles_spec nestedIndexFiles).2.2 (by decide)⟩

/-- C5: cancelling a job whose status is terminal is rejected: the handler
answers `success := false` together with the job's current status (the
`rejected` response), and the world — store, log, deployments, cancel
attempts — is returned completely unchanged: no update and no remote call
is issued. -/
theorem cancelPost_terminal_rejected (w : World) (publishId : String)
    (remote : RemoteCancel) (now : Nat) (job : PublishJob)
    (hget : storeGet w.store publishId = some job)
    (hterm : isTerminalStatus job.status = true) :
    cancelPost w publishId remote now =
      (CancelResponse.rejected job.status
        ("Cannot cancel job in " ++ statusToString job.status ++ " state"), w) := by
  simp [cancelPost, getPublishJob, hget, hterm]

/-- Witness for C5: cancelling a job already `ready` is rejected and the
world is untouched. -/
theorem cancelPost_terminal_rejected_witness :
    cancelPost (exWorld "j5" PublishStatus.ready 5) "j5"
        (RemoteCancel.ok true) 0 =
      (CancelResponse.rejected PublishStatus.ready
        "Cannot cancel job in ready state",
        exWorld "j5" PublishStatus.ready 5) :=
  (cancelPost_terminal_rejected (exWorld "j5" PublishStatus.ready 5) "j5"
    (RemoteCancel.ok true) 0 (mkJob "j5" PublishStatus.ready 5)
    (by decide) (by decide)).trans (by decide)

/-- C10: the status-query handler is read-only: for every world, job id and
provider probe outcome — including the freshness branch where a probed
provider state yields a response status different from the stored one — the
handler returns the world (store, log, deployments, cancel attempts)
unchanged. -/
theorem statusGet_readonly (w : World) (publishId : String)
    (probe : Except String DeploymentStatus) :
    (statusGet w publishId probe).snd = w := by
  unfold statusGet
  repeat' split
  all_goals rfl

/-- C7: best-effort remote cancellation.  For every cancel request against
a non-terminal job holding a remote deployment handle, and for EVERY
outcome of the remote cancel call (`ok true`, `ok false`, or a throw), the
remote cancel is attempted (the handle is appended to the attempt trace),
the local job is written to `cancelled`, and the response is the
`success := true` cancelled response. -/
theorem cancelPost_best_effort (w : World) (publishId deploymentId : String)
    (remote : RemoteCancel) (now : Nat) (job : PublishJob)
    (hget : storeGet w.store publishId = some job)
    (hterm : isTerminalStatus job.status = false)
    (hdep : job.vercel_deployment_id = some deploymentId) :
    (cancelPost w publishId remote now).fst = CancelResponse.cancelled ∧
    (cancelPost w publishId remote now).snd.cancelAttempts =
      w.cancelAttempts ++ [deploymentId] ∧
    (storeGet (cancelPost w publishId remote now).snd.store publishId).map
      PublishJob.status = some PublishStatus.cancelled := by
  have hrun : cancelPost w publishId remote now =
      (CancelResponse.cancelled,
        updateJobStatusW
          { w with cancelAttempts := w.cancelAttempts ++ [deploymentId] }
          publishId PublishStatus.cancelled {} now) := by
    simp [cancelPost, getPublishJob, hget, hterm, hdep]
  have h1 : storeGet ({ w with cancelAttempts :=
      w.cancelAttempts ++ [deploymentId] } : World).store publishId =
      some job := hget
  refine ⟨by rw [hrun], ?_, ?_⟩
  · rw [hrun, updateJobStatusW_found _ _ _ _ _ _ h1]
  · rw [hrun, updateJobStatusW_get _ _ _ _ _ _ h1]
    rfl

/-- Witness for C7: a `building` job with a deployment handle is cancelled
locally even though the remote cancel throws. -/
theorem cancelPost_best_effort_witness :
    (cancelPost (exWorldDeploy "j7" PublishStatus.building 7) "j7"
        (RemoteCancel.throws "network down") 0).fst =
      CancelResponse.cancelled ∧
    (cancelPost (exWorldDeploy "j7" PublishStatus.building 7) "j7"
        (RemoteCancel.throws "network down") 0).snd.cancelAttempts =
      ["dpl-ex"] ∧
    (storeGet (cancelPost (exWorldDeploy "j7" PublishStatus.building 7) "j7"
        (RemoteCancel.throws "network down") 0).snd.store "j7").map
      PublishJob.status = some PublishStatus.cancelled := by
  have h := cancelPost_best_effort (exWorldDeploy "j7" PublishStatus.building 7)
    "j7" "dpl-ex" (RemoteCancel.throws "network down") 0
    ({ mkJob "j7" PublishStatus.building 7 with
        vercel_deployment_id := some "dpl-ex"
        vercel_project_id := some "prj-ex" })
    (by decide) (by decide) (by decide)
  exact ⟨h.1, h.2.1.trans (by decide), h.2.2⟩

/-- C6: degraded-mode deployment.  When the job is `queued`, the payload
passes size validation, extraction succeeds, and the deployment provider is
not configured, the upload pipeline answers the mock-success response, the
stored job ends `ready` with the synthetic URL `https://mock-<appId>.vercel.app`
(which contains the job's `app_id`), and no deployment is created. -/
theorem upload_degraded (w : World) (publishId : String) (env : UploadEnv)
    (now : Nat) (job : PublishJob) (bundle : Bundle)
    (files : List DeploymentFile)
    (hget : storeGet w.store publishId = some job)
    (hst : job.status = PublishStatus.queued)
    (hb : env.bundle = some bundle)
    (hsize : bundle.length ≤ MAX_BUNDLE_SIZE)
    (hex : env.extractResult = Except.ok files)
    (hcfg : env.vercelConfigured = false) :
    (uploadPut w publishId env now).fst = UploadResponse.mockSuccess ∧
    (storeGet (uploadPut w publishId env now).snd.store publishId).map
      statusUrlOf = some (PublishStatus.ready, some (mockUrl job.app_id)) ∧
    containsStr (toString job.app_id) (mockUrl job.app_id) ∧
    (uploadPut w publishId env now).snd.deployments = w.deployments := by
  have hv : validateBundleSize bundle.length = { valid := true, error := none } := by
    rw [validateBundleSize, if_neg (by omega)]
  have hrun : uploadPut w publishId env now =
      (UploadResponse.mockSuccess,
        updateJobStatusW
          (updateJobStatusW
            (updateJobStatusW w publishId PublishStatus.uploading {} now)
            publishId PublishStatus.packaging {} now)
          publishId PublishStatus.ready
          { url := some (some (mockUrl job.app_id)) } now) := by
    simp [uploadPut, getPublishJob, hget, hst, hb, hex, hcfg, hv]
  have g1 := updateJobStatusW_get w publishId PublishStatus.uploading {} now
    job hget
  have g2 := updateJobStatusW_get _ publishId PublishStatus.packaging {} now
    _ g1
  have g3 := updateJobStatusW_get _ publishId PublishStatus.ready
    { url := some (some (mockUrl job.app_id)) } now _ g2
  refine ⟨by rw [hrun], ?_, ?_, ?_⟩
  · rw [hrun]
    simp only [g3]
    rfl
  · exact ⟨"https://mock-", ".vercel.app", rfl⟩
  · rw [hrun]
    simp [updateJobStatusW_deployments]

/-- Witness for C6: a concrete queued job with an unconfigured provider
reaches `ready` with the synthetic URL `https://mock-6.vercel.app`. -/
theorem upload_degraded_witness :
    (uploadPut (exWorld "j6" PublishStatus.queued 6) "j6" envMockEx 0).fst =
      UploadResponse.mockSuccess ∧
    (storeGet (uploadPut (exWorld "j6" PublishStatus.queued 6) "j6" envMockEx
        0).snd.store "j6").map statusUrlOf =
      some (PublishStatus.ready, some "https://mock-6.vercel.app") ∧
    (uploadPut (exWorld "j6" PublishStatus.queued 6) "j6" envMockEx
        0).snd.deployments = [] := by
  have h := upload_degraded (exWorld "j6" PublishStatus.queued 6) "j6"
    envMockEx 0 (mkJob "j6" PublishStatus.queued 6)
    { length := 1024, hash := "deadbeefcafe" }
    [{ file := "main.js", data := "x" }]
    (by decide) (by decide) rfl (by decide) rfl rfl
  exact ⟨h.1, h.2.1.trans (by decide), h.2.2.2.trans (by decide)⟩

/-- C2 counterexample: in a concrete successful upload run with a
configured provider, the written status sequence is
`uploading, packaging, deploying, building` — the job is observed in
`deploying` strictly BEFORE `building`, refuting the claim that `building`
is observed strictly before `deploying`. -/
theorem upload_order_counterexample :
    logStatuses (uploadPut (exWorld "j2" PublishStatus.queued 2) "j2"
        envDeployEx 0).snd =
      [PublishStatus.uploading, PublishStatus.packaging,
        PublishStatus.deploying, PublishStatus.building] ∧
    ¬ (statusIdx PublishStatus.building
        (logStatuses (uploadPut (exWorld "j2" PublishStatus.queued 2) "j2"
          envDeployEx 0).snd) <
      statusIdx PublishStatus.deploying
        (logStatuses (uploadPut (exWorld "j2" PublishStatus.queued 2) "j2"
          envDeployEx 0).snd)) := by
  decide

/-- C2 amended: in every successful upload run with a configured provider,
`deploying` is written just before the create-deployment call is issued
(inside `deployBundle`), and `building` is written only after the
deployment is created — the status write order is
`uploading, packaging, deploying, building`, so the job is observed in
`deploying` strictly before `building` (the reverse of the claimed
order). -/
theorem upload_deploy_order (w : World) (publishId : String) (env : UploadEnv)
    (now : Nat) (job : PublishJob) (bundle : Bundle)
    (files : List DeploymentFile) (deploymentId projectId : String)
    (hget : storeGet w.store publishId = some job)
    (hst : job.status = PublishStatus.queued)
    (hb : env.bundle = some bundle)
    (hsize : bundle.length ≤ MAX_BUNDLE_SIZE)
    (hex : env.extractResult = Except.ok files)
    (hcfg : env.vercelConfigured = true)
    (hcr : env.createResult = Except.ok (deploymentId, projectId)) :
    (uploadPut w publishId env now).fst = UploadResponse.deployed deploymentId ∧
    logStatuses (uploadPut w publishId env now).snd =
      logStatuses w ++ [PublishStatus.uploading, PublishStatus.packaging,
        PublishStatus.deploying, PublishStatus.building] := by
  have hv : validateBundleSize bundle.length = { valid := true, error := none } := by
    rw [validateBundleSize, if_neg (by omega)]
  constructor
  · simp [uploadPut, deployBundle, getPublishJob, hget, hst, hb, hex, hcfg,
      hcr, hv]
  · simp [uploadPut, deployBundle, getPublishJob, hget, hst, hb, hex, hcfg,
      hcr, hv, updateJobStatusW, updateJobStatus, updatePublishJob,
      storeGet_storeSet_self, logStatuses, applyUpdates, toUpdates]

/-- Witness for C2 amended at a concrete successful run. -/
theorem upload_deploy_order_witness :
    (uploadPut (exWorld "j2w" PublishStatus.queued 2) "j2w" envDeployEx
        0).fst = UploadResponse.deployed "dpl-ex" ∧
    logStatuses (uploadPut (exWorld "j2w" PublishStatus.queued 2) "j2w"
        envDeployEx 0).snd =
      [PublishStatus.uploading, PublishStatus.packaging,
        PublishStatus.deploying, PublishStatus.building] := by
  have h := upload_deploy_order (exWorld "j2w" PublishStatus.queued 2) "j2w"
    envDeployEx 0 (mkJob "j2w" PublishStatus.queued 2)
    { length := 1024, hash := "deadbeefcafe" }
    [{ file := "main.js", data := "x" }] "dpl-ex" "prj-ex"
    (by decide) (by decide) rfl (by decide) rfl rfl rfl
  exact ⟨h.1, h.2.trans (by decide)⟩

theorem pollLoop_timeout (publishId : String)
    (obs : Nat → Except String DeploymentStatus) (now : Nat)
    (hobs : ∀ t, nonTerminalObs (obs t)) :
    ∀ (fuel tick : Nat) (w : World) (j : PublishJob),
      storeGet w.store publishId = some j →
      (pollLoop publishId obs now fuel tick w).fst =
        { success := false, url := none, error := some "Deployment timed out" } ∧
      (storeGet (pollLoop publishId obs now fuel tick w).snd.store
        publishId).map statusErrorOf =
        some (PublishStatus.failed,
          some "Deployment timed out after 5 minutes") := by
  intro fuel
  induction fuel with
  | zero =>
    intro tick w j h
    refine ⟨rfl, ?_⟩
    show (storeGet (updateJobStatusW w publishId PublishStatus.failed
      { error := some (some "Deployment timed out after 5 minutes") }
      now).store publishId).map statusErrorOf = _
    rw [updateJobStatusW_get _ _ _ _ _ _ h]
    rfl
  | succ n ih =>
    intro tick w j h
    have hnt := hobs tick
    cases hob : obs tick with
    | error e =>
      simp only [pollLoop, hob]
      exact ih (tick + 1) w j h
    | ok st =>
      rw [hob] at hnt
      simp only [nonTerminalObs] at hnt
      rcases hnt with hq | hbd
      · simp only [pollLoop, hob, hq]
        exact ih (tick + 1) w j h
      · simp only [pollLoop, hob, hbd]
        exact ih (tick + 1) _ _ (updateJobStatusW_get _ _ _ _ _ _ h)

/-- C8: poller timeout.  For every polling run in which no terminal
provider state is ever observed (every probe is QUEUED, BUILDING, or a
swallowed error), for any wall-clock budget (the source default is
300000 ms = 5 minutes), the poller terminates by force-writing `failed`
with the timeout error message (which contains the timeout indication
"timed out") and returns the unsuccessful timed-out result. -/
theorem poll_timeout (w : World) (publishId : String)
    (obs : Nat → Except String DeploymentStatus) (maxWaitMs now : Nat)
    (j : PublishJob)
    (hobs : ∀ t, nonTerminalObs (obs t))
    (hget : storeGet w.store publishId = some j) :
    (pollDeploymentUntilReady w publishId obs maxWaitMs now).fst =
      { success := false, url := none, error := some "Deployment timed out" } ∧
    (storeGet (pollDeploymentUntilReady w publishId obs maxWaitMs
        now).snd.store publishId).map statusErrorOf =
      some (PublishStatus.failed, some "Deployment timed out after 5 minutes") ∧
    containsStr "timed out" "Deployment timed out after 5 minutes" := by
  have h := pollLoop_timeout publishId obs now hobs (pollBudget maxWaitMs)
    0 w j hget
  exact ⟨h.1, h.2, ⟨"Deployment ", " after 5 minutes", rfl⟩⟩

/-- Witness for C8: a deploying job polled against an always-QUEUED
provider with a 3-second budget ends `failed` with the timeout error. -/
theorem poll_timeout_witness :
    (pollDeploymentUntilReady (exWorldDeploy "j8" PublishStatus.deploying 8)
        "j8" obsQueued 3000 0).fst =
      { success := false, url := none, error := some "Deployment timed out" } ∧
    (storeGet (pollDeploymentUntilReady (exWorldDeploy "j8"
        PublishStatus.deploying 8) "j8" obsQueued 3000 0).snd.store
        "j8").map statusErrorOf =
      some (PublishStatus.failed, some "Deployment timed out after 5 minutes") := by
  have h := poll_timeout (exWorldDeploy "j8" PublishStatus.deploying 8) "j8"
    obsQueued 3000 0
    ({ mkJob "j8" PublishStatus.deploying 8 with
        vercel_deployment_id := some "dpl-ex"
        vercel_project_id := some "prj-ex" })
    (fun _ => Or.inl rfl) (by decide)
  exact ⟨h.1, h.2.1⟩

/-- C1 counterexample: a job stored in the terminal status `cancelled` is
overwritten to `failed` by the reconciliation poller's timeout force-write
(a core update operation), refuting terminal-state immutability. -/
theorem terminal_overwrite_counterexample :
    isTerminalStatus (mkJob "j1" PublishStatus.cancelled 1).status = true ∧
    (storeGet (pollDeploymentUntilReady (exWorld "j1" PublishStatus.cancelled 1)
        "j1" obsQueued 3000 0).snd.store "j1").map PublishJob.status =
      some PublishStatus.failed ∧
    PublishStatus.failed ≠ PublishStatus.cancelled := by
  decide

/-- C1 amended: the store's update operations enforce no terminal-state
guard at all — an update that carries a status field unconditionally
overwrites the stored status (last-write-wins), whatever the stored status
is, terminal included; in particular the poller's timeout force-write of
`failed` lands on terminal jobs.  Terminal-state protection exists only as
the cancel handler's explicit rejection and the status handler's read-only
terminal branch, not in the update path. -/
theorem update_overwrites_terminal (s : Store) (publishId : String)
    (status : PublishStatus) (extra : StatusExtra) (now : Nat)
    (j : PublishJob) (hget : storeGet s publishId = some j) :
    (storeGet (updateJobStatus s publishId status extra now).snd
      publishId).map PublishJob.status = some status := by
  simp [updateJobStatus, updatePublishJob, hget, storeGet_storeSet_self,
    applyUpdates, toUpdates]

/-- Witness for C1 amended: a job stored `ready` (terminal) is overwritten
back to `queued` by a plain status update. -/
theorem update_overwrites_terminal_witness :
    (storeGet (updateJobStatus [("j1w", mkJob "j1w" PublishStatus.ready 1)]
        "j1w" PublishStatus.queued {} 5).snd "j1w").map PublishJob.status =
      some PublishStatus.queued :=
  update_overwrites_terminal [("j1w", mkJob "j1w" PublishStatus.ready 1)]
    "j1w" PublishStatus.queued {} 5 (mkJob "j1w" PublishStatus.ready 1)
    (by decide)

theorem inv_nonterminal (j : PublishJob) (hinv : urlErrorInv j = true)
    (hterm : isTerminalStatus j.status = false) :
    j.url = none ∧ j.error = none := by
  cases hst : j.status <;> cases hu : j.url <;> cases he : j.error <;>
    simp_all [urlErrorInv, isTerminalStatus, TERMINAL_STATUSES]

theorem storeInv_get (s : Store) (publishId : String) (j : PublishJob)
    (hs : storeInv s = true) (h : storeGet s publishId = some j) :
    urlErrorInv j = true := by
  induction s with
  | nil => simp [storeGet] at h
  | cons p rest ih =>
    rw [storeInv, List.all_cons, Bool.and_eq_true] at hs
    rw [storeGet] at h
    split at h
    · obtain rfl : p.snd = j := by injection h
      exact hs.1
    · exact ih hs.2 h

theorem storeInv_set (s : Store) (publishId : String) (j : PublishJob)
    (hs : storeInv s = true) (hj : urlErrorInv j = true) :
    storeInv (storeSet s publishId j) = true := by
  induction s with
  | nil => simp [storeSet, storeInv, hj]
  | cons p rest ih =>
    rw [storeInv, List.all_cons, Bool.and_eq_true] at hs
    rw [storeSet]
    split
    · rw [storeInv, List.all_cons, Bool.and_eq_true]
      exact ⟨hj, hs.2⟩
    · rw [storeInv, List.all_cons, Bool.and_eq_true]
      exact ⟨hs.1, ih hs.2⟩

theorem pollLoop_inv (publishId : String)
    (obs : Nat → Except String DeploymentStatus) (now : Nat)
    (hobs : goodObs obs) :
    ∀ (fuel tick : Nat) (w : World) (j : PublishJob),
      storeGet w.store publishId = some j →
      j.url = none → j.error = none →
      (∀ x ∈ w.log, urlErrorInv x = true) →
      ∀ x ∈ (pollLoop publishId obs now fuel tick w).snd.log,
        urlErrorInv x = true := by
  intro fuel
  induction fuel with
  | zero =>
    intro tick w j h hu he hlog x hx
    rw [show (pollLoop publishId obs now 0 tick w).snd =
      updateJobStatusW w publishId PublishStatus.failed
        { error := some (some "Deployment timed out after 5 minutes") } now
      from rfl, updateJobStatusW_found _ _ _ _ _ _ h] at hx
    simp only [List.mem_append, List.mem_singleton] at hx
    rcases hx with hx | rfl
    · exact hlog x hx
    · simp [urlErrorInv, applyUpdates, toUpdates, hu, he]
  | succ n ih =>
    intro tick w j h hu he hlog x hx
    cases hob : obs tick with
    | error e =>
      simp only [pollLoop, hob] at hx
      exact ih (tick + 1) w j h hu he hlog x hx
    | ok st =>
      cases hrs : st.readyState with
      | QUEUED =>
        simp only [pollLoop, hob, hrs] at hx
        exact ih (tick + 1) w j h hu he hlog x hx
      | BUILDING =>
        simp only [pollLoop, hob, hrs] at hx
        refine ih (tick + 1) _ _ (updateJobStatusW_get _ _ _ _ _ _ h)
          ?_ ?_ ?_ x hx
        · simp [applyUpdates, toUpdates, hu]
        · simp [applyUpdates, toUpdates, he]
        · intro y hy
          rw [updateJobStatusW_found _ _ _ _ _ _ h] at hy
          simp only [List.mem_append, List.mem_singleton] at hy
          rcases hy with hy | rfl
          · exact hlog y hy
          · simp [urlErrorInv, applyUpdates, toUpdates, hu, he]
      | READY =>
        simp only [pollLoop, hob, hrs] at hx
        rw [updateJobStatusW_found _ _ _ _ _ _ h] at hx
        simp only [List.mem_append, List.mem_singleton] at hx
        rcases hx with hx | rfl
        · exact hlog x hx
        · have hsu := hobs tick st hob hrs
          simp [urlErrorInv, applyUpdates, toUpdates, hsu, he]
      | ERROR =>
        simp only [pollLoop, hob, hrs] at hx
        rw [updateJobStatusW_found _ _ _ _ _ _ h] at hx
        simp only [List.mem_append, List.mem_singleton] at hx
        rcases hx with hx | rfl
        · exact hlog x hx
        · simp [urlErrorInv, applyUpdates, toUpdates, hu]
      | CANCELED =>
        simp only [pollLoop, hob, hrs] at hx
        rw [updateJobStatusW_found _ _ _ _ _ _ h] at hx
        simp only [List.mem_append, List.mem_singleton] at hx
        rcases hx with hx | rfl
        · exact hlog x hx
        · simp [urlErrorInv, applyUpdates, toUpdates, hu, he]

theorem uploadPut_inv (w : World) (publishId : String) (env : UploadEnv)
    (now : Nat) (job : PublishJob)
    (hget : storeGet w.store publishId = some job)
    (hst : job.status = PublishStatus.queued)
    (hu : job.url = none) (he : job.error = none)
    (hlog : ∀ x ∈ w.log, urlErrorInv x = true) :
    (∀ x ∈ (uploadPut w publishId env now).snd.log, urlErrorInv x = true) ∧
    (∀ deploymentId,
      (uploadPut w publishId env now).fst =
        UploadResponse.deployed deploymentId →
      ∃ j2, storeGet (uploadPut w publishId env now).snd.store publishId =
          some j2 ∧ j2.url = none ∧ j2.error = none) := by
  rcases hb : env.bundle with _ | bundle
  · constructor
    · intro x hx
      simp only [uploadPut, getPublishJob, hget, hst, hb, updateJobStatusW,
        updateJobStatus, updatePublishJob, storeGet_storeSet_self,
        applyUpdates, toUpdates] at hx
      simp at hx
      rcases hx with hx | rfl | rfl
      · exact hlog x hx
      · simp [urlErrorInv, hu, he]
      · simp [urlErrorInv, hu, he]
    · intro did hdid
      simp [uploadPut, getPublishJob, hget, hst, hb] at hdid
  · by_cases hsz : bundle.length > MAX_BUNDLE_SIZE
    · have hv : validateBundleSize bundle.length =
          { valid := false
            error := some ("Bundle too large: " ++ toString bundle.length ++
              " bytes (max " ++ toString MAX_BUNDLE_SIZE ++ " bytes)") } := by
        rw [validateBundleSize, if_pos hsz]
      constructor
      · intro x hx
        simp only [uploadPut, getPublishJob, hget, hst, hb, hv,
          updateJobStatusW, updateJobStatus, updatePublishJob,
          storeGet_storeSet_self, applyUpdates, toUpdates] at hx
        simp at hx
        rcases hx with hx | rfl | rfl
        · exact hlog x hx
        · simp [urlErrorInv, hu, he]
        · simp [urlErrorInv, hu, he]
      · intro did hdid
        simp [uploadPut, getPublishJob, hget, hst, hb, hv] at hdid
    · have hv : validateBundleSize bundle.length =
          { valid := true, error := none } := by
        rw [validateBundleSize, if_neg hsz]
      rcases hex : env.extractResult with msg | files
      · constructor
        · intro x hx
          simp only [uploadPut, getPublishJob, hget, hst, hb, hv, hex,
            updateJobStatusW, updateJobStatus, updatePublishJob,
            storeGet_storeSet_self, applyUpdates, toUpdates] at hx
          simp at hx
          rcases hx with hx | rfl | rfl
          · exact hlog x hx
          · simp [urlErrorInv, hu, he]
          · simp [urlErrorInv, hu, he]
        · intro did hdid
          simp [uploadPut, getPublishJob, hget, hst, hb, hv, hex] at hdid
      · by_cases hcfg : env.vercelConfigured
        · rcases hcr : env.createResult with msg | ⟨did0, pid0⟩
          · constructor
            · intro x hx
              simp only [uploadPut, deployBundle, getPublishJob, hget, hst,
                hb, hv, hex, hcfg, hcr, updateJobStatusW, updateJobStatus,
                updatePublishJob, storeGet_storeSet_self, applyUpdates,
                toUpdates] at hx
              simp at hx
              rcases hx with hx | rfl | rfl | rfl | rfl
              · exact hlog x hx
              · simp [urlErrorInv, hu, he]
              · simp [urlErrorInv, hu, he]
              · simp [urlErrorInv, hu, he]
              · simp [urlErrorInv, hu, he]
            · intro did hdid
              simp [uploadPut, deployBundle, getPublishJob, hget, hst, hb,
                hv, hex, hcfg, hcr] at hdid
          · constructor
            · intro x hx
              simp only [uploadPut, deployBundle, getPublishJob, hget, hst,
                hb, hv, hex, hcfg, hcr, updateJobStatusW, updateJobStatus,
                updatePublishJob, storeGet_storeSet_self, applyUpdates,
                toUpdates] at hx
              simp at hx
              rcases hx with hx | rfl | rfl | rfl | rfl
              · exact hlog x hx
              · simp [urlErrorInv, hu, he]
              · simp [urlErrorInv, hu, he]
              · simp [urlErrorInv, hu, he]
              · simp [urlErrorInv, hu, he]
            · intro did hdid
              exact ⟨_,
                by
                  simp [uploadPut, deployBundle, getPublishJob, hget,
                    hst, hb, hv, hex, hcfg, hcr, updateJobStatusW,
                    updateJobStatus, updatePublishJob, storeGet_storeSet_self,
                    applyUpdates, toUpdates]
                  exact rfl,
                by simp [hu],
                by simp [he]⟩
        · rw [Bool.not_eq_true] at hcfg
          constructor
          · intro x hx
            simp only [uploadPut, getPublishJob, hget, hst, hb, hv, hex,
              hcfg, updateJobStatusW, updateJobStatus, updatePublishJob,
              storeGet_storeSet_self, applyUpdates, toUpdates] at hx
            simp at hx
            rcases hx with hx | rfl | rfl | rfl
            · exact hlog x hx
            · simp [urlErrorInv, hu, he]
            · simp [urlErrorInv, hu, he]
            · simp [urlErrorInv, hu, he]
          · intro did hdid
            simp [uploadPut, getPublishJob, hget, hst, hb, hv, hex,
              hcfg] at hdid

/-- C3 counterexample: the poller, observing a provider READY state that
carries no URL, writes a record with `status = ready` and `url` unset —
refuting "url is set if and only if status is ready" for records mutated by
the poller. -/
theorem url_error_counterexample :
    (storeGet (pollDeploymentUntilReady (exWorldDeploy "j3"
        PublishStatus.deploying 3) "j3" obsReadyNoUrl 3000 0).snd.store
        "j3").map statusUrlOf = some (PublishStatus.ready, none) ∧
    (storeGet (pollDeploymentUntilReady (exWorldDeploy "j3"
        PublishStatus.deploying 3) "j3" obsReadyNoUrl 3000 0).snd.store
        "j3").map urlErrorInv = some false := by
  decide

/-- C3 amended: for every record produced by a sequential run of the core
operations — create, the upload pipeline, the background poller — and for
every cancel request against a store whose records satisfy the invariant,
the invariant "url is set iff ready; error is set when failed and only on
failed or cancelled" holds, PROVIDED every READY provider observation
carries a URL (a READY observation without a URL produces a ready record
with url unset, per the counterexample). -/
theorem url_error_invariant (newId : String) (params : CreateParams)
    (re : RunEnv) (now : Nat) (w : World) (publishId : String)
    (remote : RemoteCancel) (now2 : Nat)
    (hobs : goodObs re.obs)
    (hw : storeInv w.store = true) :
    (fullRun newId params re now).log.all urlErrorInv = true ∧
    storeInv (cancelPost w publishId remote now2).snd.store = true := by
  constructor
  · rw [List.all_eq_true]
    intro x hx
    simp only [fullRun] at hx
    have hget1 : storeGet ((createPublishJob [] newId params now).snd) newId =
        some ((createPublishJob [] newId params now).fst) := by
      simp [createPublishJob, storeGet_storeSet_self]
    have hst1 : ((createPublishJob [] newId params now).fst).status =
        PublishStatus.queued := by simp [createPublishJob]
    have hu1 : ((createPublishJob [] newId params now).fst).url = none := by
      simp [createPublishJob]
    have he1 : ((createPublishJob [] newId params now).fst).error = none := by
      simp [createPublishJob]
    have hlog1 : ∀ y ∈ [(createPublishJob [] newId params now).fst],
        urlErrorInv y = true := by
      intro y hy
      rw [List.mem_singleton] at hy
      subst hy
      simp [createPublishJob, urlErrorInv]
    have hui := uploadPut_inv
      { store := (createPublishJob [] newId params now).snd
        log := [(createPublishJob [] newId params now).fst] }
      newId re.env now ((createPublishJob [] newId params now).fst)
      hget1 hst1 hu1 he1 hlog1
    cases hresp : (uploadPut
        { store := (createPublishJob [] newId params now).snd
          log := [(createPublishJob [] newId params now).fst] }
        newId re.env now).fst
    case deployed d =>
      simp only [hresp] at hx
      obtain ⟨j2, hg2, hu2, he2⟩ := hui.2 d hresp
      simp only [pollDeploymentUntilReady] at hx
      exact pollLoop_inv newId re.obs now hobs (pollBudget re.maxWaitMs) 0
        _ j2 hg2 hu2 he2 hui.1 x hx
    all_goals
      simp only [hresp] at hx
      exact hui.1 x hx
  · cases hj : getPublishJob w.store publishId with
    | none =>
      have hrun : cancelPost w publishId remote now2 =
          (CancelResponse.notFound, w) := by
        simp [cancelPost, hj]
      rw [hrun]
      exact hw
    | some job =>
      by_cases hterm : isTerminalStatus job.status
      · have hrun : cancelPost w publishId remote now2 =
            (CancelResponse.rejected job.status
              ("Cannot cancel job in " ++ statusToString job.status ++
                " state"), w) := by
          simp [cancelPost, hj, hterm]
        rw [hrun]
        exact hw
      · rw [Bool.not_eq_true] at hterm
        have hjinv := storeInv_get w.store publishId job hw hj
        have hnt := inv_nonterminal job hjinv hterm
        have hrec : urlErrorInv
            (applyUpdates job (toUpdates PublishStatus.cancelled {}) now2) =
            true := by
          simp [urlErrorInv, applyUpdates, toUpdates, hnt.1, hnt.2]
        cases hdep : job.vercel_deployment_id with
        | none =>
          have hrun : cancelPost w publishId remote now2 =
              (CancelResponse.cancelled,
                updateJobStatusW w publishId PublishStatus.cancelled {}
                  now2) := by
            simp [cancelPost, hj, hterm, hdep]
          rw [hrun, updateJobStatusW_found _ _ _ _ _ _ hj]
          exact storeInv_set w.store publishId _ hw hrec
        | some d =>
          have hrun : cancelPost w publishId remote now2 =
              (CancelResponse.cancelled,
                updateJobStatusW
                  { w with cancelAttempts := w.cancelAttempts ++ [d] }
                  publishId PublishStatus.cancelled {} now2) := by
            simp [cancelPost, hj, hterm, hdep]
          rw [hrun, updateJobStatusW_found
            { w with cancelAttempts := w.cancelAttempts ++ [d] }
            publishId PublishStatus.cancelled {} now2 job hj]
          exact storeInv_set w.store publishId _ hw hrec

/-- Witness for C3 amended: a concrete full run (create, upload, deploy,
poll to READY with a URL) whose log satisfies the invariant throughout,
and a concrete cancel against an invariant store. -/
theorem url_error_invariant_witness :
    (fullRun "jw3" { appId := 3, bundleHash := "abc", bundleSize := 10 }
      { env := envDeployEx, obs := obsReadyWithUrl, maxWaitMs := 300000 }
      0).log.all urlErrorInv = true ∧
    storeInv (cancelPost (exWorld "jc3" PublishStatus.building 9) "jc3"
      (RemoteCancel.ok false) 0).snd.store = true := by
  have h := url_error_invariant "jw3"
    { appId := 3, bundleHash := "abc", bundleSize := 10 }
    { env := envDeployEx, obs := obsReadyWithUrl, maxWaitMs := 300000 } 0
    (exWorld "jc3" PublishStatus.building 9) "jc3" (RemoteCancel.ok false) 0
    (by
      intro t st hob hr
      simp only [obsReadyWithUrl] at hob
      injection hob with h2
      rw [← h2]
      rfl)
    (by decide)
  exact h

end AbbaBroker
